import Mathlib

/-!
Verification of the heart-disease risk dashboard (`app.py`).

The pipeline under study: sidebar inputs are converted to a numeric
feature vector (lines 63-72), scaled, fed to a binary classifier, and
the raw (unscaled) values plus the prediction and a derived risk level
are appended to a CSV store (lines 115-127).  Analytics read the store
back (lines 141-162).

Modelling conventions:
- numeric cells are `Rat` (the Python values are ints and one float,
  `oldpeak`; every operation here passes them through unchanged, so no
  floating-point rounding can occur);
- an unhandled Python exception (IndexError / ValueError from the
  string parsing) is modelled as `none`;
- the CSV file is `Option (List PersistedRecord)`, `none` meaning the
  file does not exist yet.
-/

/-- A raw sidebar input (lines 45-58 of `app.py`): the slider values and
the literal selectbox strings, before any conversion. -/
structure RawInput where
  age : Int
  sex : String
  cp : String
  trestbps : Int
  chol : Int
  fbs : String
  restecg : String
  thalach : Int
  exang : String
  oldpeak : Rat
  slope : String
  ca : Int
  thal : String
deriving DecidableEq

/-- Line 63: `sex = 1 if sex == "Male" else 0`. -/
def encodeSex (s : String) : Int := if s = "Male" then 1 else 0

/-- Line 64: `fbs = 1 if fbs == "True" else 0`. -/
def encodeFbs (s : String) : Int := if s = "True" then 1 else 0

/-- Line 65: `exang = 1 if exang == "Yes" else 0`. -/
def encodeExang (s : String) : Int := if s = "Yes" then 1 else 0

/-- Lines 66-69: `int(x.split("(")[1][0])` — the character right after the
first `(` of the selectbox string, read as a digit.  `none` models the
unhandled exception Python raises when there is no `(`, when nothing
follows it (IndexError), or when the character is not a digit
(ValueError from `int`). -/
def parenCode (s : String) : Option Int :=
  match s.toList.dropWhile (fun c => c ≠ '(') with
  | [] => none
  | _ :: rest =>
    match rest with
    | [] => none
    | c :: _ => if c.isDigit then some ((c.toNat - '0'.toNat : Nat) : Int) else none

/-- Lines 63-72: the full input conversion producing
`input_data = [[age, sex, cp, trestbps, chol, fbs, restecg, thalach,
exang, oldpeak, slope, ca, thal]]`.  Any conversion failure aborts the
request (`none`). -/
def encode (r : RawInput) : Option (List Rat) :=
  match parenCode r.cp, parenCode r.restecg, parenCode r.slope, parenCode r.thal with
  | some cp, some restecg, some slope, some thal =>
      some [(r.age : Rat), (encodeSex r.sex : Rat), (cp : Rat), (r.trestbps : Rat),
            (r.chol : Rat), (encodeFbs r.fbs : Rat), (restecg : Rat), (r.thalach : Rat),
            (encodeExang r.exang : Rat), r.oldpeak, (slope : Rat), (r.ca : Rat), (thal : Rat)]
  | _, _, _, _ => none

/-- Lines 77-80: the column names of `input_df`, in order. -/
def dfColumns : List String :=
  ["age", "sex", "cp", "trestbps", "chol", "fbs", "restecg",
   "thalach", "exang", "oldpeak", "slope", "ca", "thal"]

/-- Lines 118-119 extend `input_df` with `prediction` and `risk_level`,
so the persisted table has these 15 columns in this order. -/
def persistedColumns : List String := dfColumns ++ ["prediction", "risk_level"]

/-- Line 119 (and line 104's display string): the derived risk level. -/
def riskLevel (label : Int) : String := if label = 1 then "High" else "Low"

/-- One persisted row: the 13 raw feature values plus the prediction
label and the derived risk level (lines 77-80, 118-119). -/
structure PersistedRecord where
  features : List Rat
  prediction : Int
  risk_level : String
deriving DecidableEq

/-- Lines 118-119: build the row that gets appended. -/
def mkRecord (v : List Rat) (label : Int) : PersistedRecord :=
  { features := v, prediction := label, risk_level := riskLevel label }

/-- Lines 121-127: the append path.  If `patient_records.csv` exists it is
read, the new row is concatenated, and the whole table is written back;
otherwise the new row alone becomes the table. -/
def appendRecord (store : Option (List PersistedRecord)) (rec : PersistedRecord) :
    Option (List PersistedRecord) :=
  match store with
  | none => some [rec]
  | some rows => some (rows ++ [rec])

/-- Lines 121-125 and 141-165: every read of the store is guarded by
`os.path.exists`; a missing file is treated as "no records" and never
read, so no error can occur. -/
def readAll (store : Option (List PersistedRecord)) : List PersistedRecord :=
  match store with
  | none => []
  | some rows => rows

/-- Lines 102-127: a whole prediction request.  `scalerF` and `modelF`
are the opaque loaded artifacts (`scaler.transform`, `model.predict`).
The record stores the raw vector `v`, not `scalerF v` (line 77 builds
`input_df` from `input_data`, not `input_data_scaled`). -/
def pipeline (scalerF : List Rat → List Rat) (modelF : List Rat → Int)
    (r : RawInput) (store : Option (List PersistedRecord)) :
    Option (PersistedRecord × Option (List PersistedRecord)) :=
  match encode r with
  | none => none
  | some v =>
      let label := modelF (scalerF v)
      let row := mkRecord v label
      some (row, appendRecord store row)

/-- The end-to-end example input of the spec (each field one of the
literal sidebar choices of lines 45-58). -/
def exampleInput : RawInput :=
  { age := 45, sex := "Male", cp := "Asymptomatic (4)", trestbps := 120, chol := 200,
    fbs := "False", restecg := "Normal (0)", thalach := 150, exang := "No",
    oldpeak := 1, slope := "Flat (2)", ca := 0, thal := "Normal (3)" }

/-- A cell of the persisted table: a number or a string (`risk_level`). -/
inductive Cell where
  | num : Rat → Cell
  | str : String → Cell
deriving DecidableEq

/-- A pandas DataFrame, at the level of detail the schema claims need:
a column list plus rows of (column, value) pairs, `none` standing for a
NaN / missing entry. -/
structure DF where
  cols : List String
  rows : List (List (String × Option Cell))
deriving DecidableEq

/-- Value of column `c` in row `r`: `none` if the column is absent,
`some x` if present with entry `x`. -/
def lookupCol (r : List (String × Option Cell)) (c : String) : Option (Option Cell) :=
  (r.find? (fun p => p.1 = c)).map (fun p => p.2)

/-- Reindex a row to a column list: absent columns become NaN (`none`),
exactly as `pd.concat` aligns rows by column name. -/
def reindexRow (cs : List String) (r : List (String × Option Cell)) :
    List (String × Option Cell) :=
  cs.map (fun c => (c, (lookupCol r c).join))

/-- Column list of `pd.concat([a, b])`: the first frame's columns, then
the second frame's columns not already present, in order. -/
def unionCols (c1 c2 : List String) : List String :=
  c1 ++ c2.filter (fun c => ¬ c ∈ c1)

/-- Line 123: `pd.concat([existing_data, input_df], ignore_index=True)`.
It never fails on a column mismatch: it unions the columns and aligns
every row by name, filling missing entries with NaN. -/
def pdConcat (a b : DF) : DF :=
  let cs := unionCols a.cols b.cols
  { cols := cs, rows := (a.rows ++ b.rows).map (reindexRow cs) }

/-- The row `input_df` holds after lines 118-119, as (column, value)
pairs in column order. -/
def recordRow (v : List Rat) (label : Int) : List (String × Option Cell) :=
  (dfColumns.zip (v.map (fun x => some (Cell.num x)))) ++
    [("prediction", some (Cell.num (label : Rat))), ("risk_level", some (Cell.str (riskLevel label)))]

/-- `input_df` after lines 118-119, as a DataFrame. -/
def recordDF (v : List Rat) (label : Int) : DF :=
  { cols := persistedColumns, rows := [recordRow v label] }

/-- Lines 121-127 at DataFrame level: read-if-exists, concat, write. -/
def appendDF (store : Option DF) (row : DF) : DF :=
  match store with
  | none => row
  | some existing => pdConcat existing row

/-- The `risk_level` column of the store (line 162 reads it). -/
def riskColumn (rows : List PersistedRecord) : List String :=
  rows.map (fun r => r.risk_level)

/-- Count of one value in a column — `value_counts()[v]` when `v`
occurs. -/
def countVal (xs : List String) (v : String) : Nat :=
  (xs.filter (fun x => x = v)).length

/-- The index of `value_counts()`: the distinct values that actually
occur in the column.  A value with zero occurrences has no entry
(pandas drops it; only the sort order of the index, irrelevant here,
is not modelled). -/
def valueCountsKeys (xs : List String) : List String := xs.dedup

/-- One interleaving step of a concurrent `append` call: task `i`
either performs its read of the CSV (the `os.path.exists` check plus
`pd.read_csv`, lines 121-122) or its write-back (`to_csv`, line 127). -/
inductive StoreStep where
  | doRead : Nat → StoreStep
  | doWrite : Nat → StoreStep
deriving DecidableEq

/-- Shared state while several `append` calls are in flight: the CSV
file, and for each task the snapshot it has read (`none` = not yet
read). -/
structure CState where
  file : Option (List PersistedRecord)
  snaps : List (Option (Option (List PersistedRecord)))
deriving DecidableEq

/-- What one task writes back, given the snapshot it read: lines
121-125 — the snapshot's rows plus its own row, or just its own row if
the file did not exist at read time. -/
def appendSnapshot (snap : Option (List PersistedRecord)) (rec : PersistedRecord) :
    List PersistedRecord :=
  match snap with
  | none => [rec]
  | some rows => rows ++ [rec]

/-- Execute one step.  A write by a task that has not read yet cannot
happen in the code (the read textually precedes the write) and is a
no-op here. -/
def cstep (recs : List PersistedRecord) (s : CState) : StoreStep → CState
  | StoreStep.doRead i => { file := s.file, snaps := s.snaps.set i (some s.file) }
  | StoreStep.doWrite i =>
    match s.snaps.getD i none, recs.get? i with
    | some snap, some r => { file := some (appendSnapshot snap r), snaps := s.snaps }
    | _, _ => s

/-- Run an interleaving of the `append` calls for records `recs`,
starting from file state `file0`. -/
def crun (recs : List PersistedRecord) (file0 : Option (List PersistedRecord))
    (sched : List StoreStep) : CState :=
  sched.foldl (cstep recs) { file := file0, snaps := List.replicate recs.length none }

/-- A schedule is a legal interleaving of the `n` append calls: each
task reads exactly once and writes exactly once, its read precedes its
write, and no other steps occur. -/
def validSchedule (n : Nat) (sched : List StoreStep) : Prop :=
  (∀ i, i < n → sched.count (StoreStep.doRead i) = 1 ∧ sched.count (StoreStep.doWrite i) = 1) ∧
  (∀ i, i < n → sched.indexOf (StoreStep.doRead i) < sched.indexOf (StoreStep.doWrite i)) ∧
  (∀ s ∈ sched, ∃ i, i < n ∧ (s = StoreStep.doRead i ∨ s = StoreStep.doWrite i))

/-- The encoded vector of the spec's end-to-end example. -/
def exVec : List Rat := [45, 1, 4, 120, 200, 0, 0, 150, 0, 1, 2, 0, 3]

/-- Claim C2: the encoder maps the enumerated choices by the fixed
tables (Male→1/Female→0, True→1/False→0, Yes→1/No→0, and the digit
embedded in each categorical choice string), passes numerics through,
and the spec's example input encodes to exactly
[45,1,4,120,200,0,0,150,0,1.0,2,0,3]. -/
theorem c2_encoding_tables :
    encodeSex "Male" = 1 ∧ encodeSex "Female" = 0 ∧
    encodeFbs "True" = 1 ∧ encodeFbs "False" = 0 ∧
    encodeExang "Yes" = 1 ∧ encodeExang "No" = 0 ∧
    parenCode "Typical Angina (1)" = some 1 ∧
    parenCode "Atypical Angina (2)" = some 2 ∧
    parenCode "Non-anginal (3)" = some 3 ∧
    parenCode "Asymptomatic (4)" = some 4 ∧
    parenCode "Normal (0)" = some 0 ∧
    parenCode "ST-T Abnormality (1)" = some 1 ∧
    parenCode "Left Ventricular Hypertrophy (2)" = some 2 ∧
    parenCode "Upsloping (1)" = some 1 ∧
    parenCode "Flat (2)" = some 2 ∧
    parenCode "Downsloping (3)" = some 3 ∧
    parenCode "Normal (3)" = some 3 ∧
    parenCode "Fixed Defect (6)" = some 6 ∧
    parenCode "Reversible Defect (7)" = some 7 ∧
    parenCode "Asymptomatic(4)" = some 4 ∧
    encode exampleInput = some exVec := by
  decide

/-- Claim C3: the derived risk level is "High" exactly when the label
is 1, otherwise "Low", and no third value can occur in a persisted
record's `risk_level` field. -/
theorem c3_risk_level :
    ∀ (l : Int) (v : List Rat),
      ((mkRecord v l).risk_level = "High" ↔ l = 1) ∧
      ((mkRecord v l).risk_level = "Low" ↔ ¬ l = 1) ∧
      ((mkRecord v l).risk_level = "High" ∨ (mkRecord v l).risk_level = "Low") := by
  intro l v
  by_cases h : l = 1 <;> simp [mkRecord, riskLevel, h]

/-- Claim C6: reading the store when its backing file has never been
written yields the empty sequence, not an error (the code guards every
read with an existence check, so the missing-file case reads nothing). -/
theorem c6_empty_store_read :
    readAll none = [] ∧ ∀ rows, readAll (some rows) = rows :=
  ⟨rfl, fun _ => rfl⟩

/-- Claim C10: a sequential append leaves every prior row unchanged in
place and adds the new record at the end; the first-ever append
produces a store holding exactly that one row. -/
theorem c10_append_frame :
    ∀ (store : Option (List PersistedRecord)) (rec : PersistedRecord),
      appendRecord store rec = some (readAll store ++ [rec]) ∧
      readAll (appendRecord store rec) = readAll store ++ [rec] ∧
      appendRecord none rec = some [rec] := by
  intro store rec
  cases store <;> exact ⟨rfl, rfl, rfl⟩

/-- Claim C4: after a prediction request, the last element of
`readAll` is exactly the appended record, whose features are the raw
encoder output — independent of the scaler — together with the label
and the derived risk level. -/
theorem c4_roundtrip :
    ∀ (scalerF : List Rat → List Rat) (modelF : List Rat → Int)
      (r : RawInput) (store : Option (List PersistedRecord)) (v : List Rat),
      encode r = some v →
      ∃ rec store',
        pipeline scalerF modelF r store = some (rec, store') ∧
        (readAll store').getLast? = some rec ∧
        rec.features = v ∧
        rec.prediction = modelF (scalerF v) ∧
        rec.risk_level = riskLevel (modelF (scalerF v)) := by
  intro sf mf r store v h
  refine ⟨mkRecord v (mf (sf v)), appendRecord store (mkRecord v (mf (sf v))),
    ?_, ?_, rfl, rfl, rfl⟩
  · simp [pipeline, h]
  · cases store <;> simp [appendRecord, readAll]

/-- Witness for C4 at the spec's example input, an identity scaler and
a constant-1 classifier. -/
theorem c4_roundtrip_witness :
    ∃ rec store',
      pipeline (fun v => v) (fun _ => 1) exampleInput none = some (rec, store') ∧
      (readAll store').getLast? = some rec ∧
      rec.features = exVec ∧
      rec.prediction = 1 ∧
      rec.risk_level = riskLevel 1 :=
  c4_roundtrip (fun v => v) (fun _ => 1) exampleInput none exVec (by decide)

/-- Claim C1: for every input the encoder accepts, the output vector
has 13 components holding, in order, age, sex, cp, trestbps, chol,
fbs, restecg, thalach, exang, oldpeak, slope, ca, thal — and the
persisted table uses this same column order, extended by prediction
and risk_level. -/
theorem c1_column_order :
    ∀ (r : RawInput) (v : List Rat),
      encode r = some v →
      v.length = 13 ∧
      v.getD 0 0 = (r.age : Rat) ∧
      v.getD 1 0 = (encodeSex r.sex : Rat) ∧
      (∃ c, parenCode r.cp = some c ∧ v.getD 2 0 = (c : Rat)) ∧
      v.getD 3 0 = (r.trestbps : Rat) ∧
      v.getD 4 0 = (r.chol : Rat) ∧
      v.getD 5 0 = (encodeFbs r.fbs : Rat) ∧
      (∃ c, parenCode r.restecg = some c ∧ v.getD 6 0 = (c : Rat)) ∧
      v.getD 7 0 = (r.thalach : Rat) ∧
      v.getD 8 0 = (encodeExang r.exang : Rat) ∧
      v.getD 9 0 = r.oldpeak ∧
      (∃ c, parenCode r.slope = some c ∧ v.getD 10 0 = (c : Rat)) ∧
      v.getD 11 0 = (r.ca : Rat) ∧
      (∃ c, parenCode r.thal = some c ∧ v.getD 12 0 = (c : Rat)) ∧
      persistedColumns = ["age", "sex", "cp", "trestbps", "chol", "fbs", "restecg",
        "thalach", "exang", "oldpeak", "slope", "ca", "thal", "prediction", "risk_level"] := by
  intro r v h
  cases hcp : parenCode r.cp <;> cases hre : parenCode r.restecg <;>
    cases hsl : parenCode r.slope <;> cases hth : parenCode r.thal <;>
    simp [encode, hcp, hre, hsl, hth] at h
  subst h
  refine ⟨rfl, rfl, rfl, ⟨_, rfl, rfl⟩, rfl, rfl, rfl, ⟨_, rfl, rfl⟩, rfl, rfl, rfl,
    ⟨_, rfl, rfl⟩, rfl, ⟨_, rfl, rfl⟩, by decide⟩

/-- Witness for C1 at the spec's example input. -/
theorem c1_column_order_witness :
    exVec.length = 13 ∧
    exVec.getD 0 0 = ((45 : Int) : Rat) ∧
    exVec.getD 1 0 = (encodeSex "Male" : Rat) ∧
    (∃ c, parenCode "Asymptomatic (4)" = some c ∧ exVec.getD 2 0 = (c : Rat)) ∧
    exVec.getD 3 0 = ((120 : Int) : Rat) ∧
    exVec.getD 4 0 = ((200 : Int) : Rat) ∧
    exVec.getD 5 0 = (encodeFbs "False" : Rat) ∧
    (∃ c, parenCode "Normal (0)" = some c ∧ exVec.getD 6 0 = (c : Rat)) ∧
    exVec.getD 7 0 = ((150 : Int) : Rat) ∧
    exVec.getD 8 0 = (encodeExang "No" : Rat) ∧
    exVec.getD 9 0 = (1 : Rat) ∧
    (∃ c, parenCode "Flat (2)" = some c ∧ exVec.getD 10 0 = (c : Rat)) ∧
    exVec.getD 11 0 = ((0 : Int) : Rat) ∧
    (∃ c, parenCode "Normal (3)" = some c ∧ exVec.getD 12 0 = (c : Rat)) ∧
    persistedColumns = ["age", "sex", "cp", "trestbps", "chol", "fbs", "restecg",
      "thalach", "exang", "oldpeak", "slope", "ca", "thal", "prediction", "risk_level"] :=
  c1_column_order exampleInput exVec (by decide)

/-- A would-be record whose `thal` column is missing (14 columns). -/
def missingThalRow : List (String × Option Cell) :=
  (recordRow exVec 0).filter (fun p => p.1 ≠ "thal")

/-- The 14-column frame holding `missingThalRow`. -/
def missingThalDF : DF :=
  { cols := persistedColumns.filter (fun c => c ≠ "thal"), rows := [missingThalRow] }

/-- Counterexample to claim C5: appending a record that is missing the
`thal` column to a store already carrying the 15-column schema does
not fail at all — the concat succeeds, keeps both rows, and silently
fills the missing entry with NaN.  No schema check or
SchemaMismatchError exists anywhere in the code. -/
theorem c5_counterexample :
    (appendDF (some (recordDF exVec 0)) missingThalDF).rows.length = 2 ∧
    (appendDF (some (recordDF exVec 0)) missingThalDF).cols = persistedColumns ∧
    lookupCol ((appendDF (some (recordDF exVec 0)) missingThalDF).rows.getD 1 []) "thal"
      = some none ∧
    lookupCol ((appendDF (some (recordDF exVec 0)) missingThalDF).rows.getD 1 []) "age"
      = some (some (Cell.num 45)) := by
  decide

/-- The union of the persisted column list with itself is itself. -/
theorem unionCols_persisted_self :
    unionCols persistedColumns persistedColumns = persistedColumns := by
  decide

/-- Claim C5, amended: the first write does establish the fixed
15-column schema, and appends of the app's own records keep it; but a
mismatched record is never rejected — `pd.concat` silently unions the
columns, so every append succeeds and adds exactly the new rows. -/
theorem c5_schema_amended :
    ∀ (v w : List Rat) (l1 l2 : Int) (R : DF),
      (appendDF none (recordDF v l1)).cols = persistedColumns ∧
      (appendDF (some (recordDF v l1)) (recordDF w l2)).cols = persistedColumns ∧
      (appendDF (some (recordDF v l1)) R).rows.length = 1 + R.rows.length := by
  intro v w l1 l2 R
  refine ⟨rfl, ?_, ?_⟩
  · show unionCols persistedColumns persistedColumns = persistedColumns
    exact unionCols_persisted_self
  · simp [appendDF, pdConcat, recordDF, Nat.add_comm]

/-- The example input with an age of 150, far outside the documented
domain [18, 100]. -/
def badAgeInput : RawInput := { exampleInput with age := 150 }

/-- The vector the encoder produces for `badAgeInput`. -/
def badAgeVec : List Rat := [150, 1, 4, 120, 200, 0, 0, 150, 0, 1, 2, 0, 3]

/-- Counterexample to claim C7: an input whose age (150) is outside
the documented domain [18,100] is not rejected — the encoder succeeds,
the out-of-domain value passes straight through at position 0, and the
request runs to completion, appending the record to the store.  No
InvalidInputError or any validation exists in the code. -/
theorem c7_counterexample :
    encode badAgeInput = some badAgeVec ∧
    pipeline (fun v => v) (fun _ => 0) badAgeInput none =
      some (mkRecord badAgeVec 0, some [mkRecord badAgeVec 0]) := by
  decide

/-- Claim C7, amended: the encoder performs no domain validation at
all.  Numeric fields pass through unchanged whatever their value (the
bounded UI widgets are the only guard), and the request is still
appended to the store; a categorical string outside the known set is
not reported as InvalidInputError — if it carries no parsable "(digit"
the conversion dies with an unhandled exception (modelled `none`). -/
theorem c7_no_validation :
    ∀ (a : Int) (o : Rat),
      encode { exampleInput with age := a, oldpeak := o } =
        some [(a : Rat), 1, 4, 120, 200, 0, 0, 150, 0, o, 2, 0, 3] ∧
      pipeline (fun v => v) (fun _ => 0) { exampleInput with age := a, oldpeak := o } none =
        some (mkRecord [(a : Rat), 1, 4, 120, 200, 0, 0, 150, 0, o, 2, 0, 3] 0,
          some [mkRecord [(a : Rat), 1, 4, 120, 200, 0, 0, 150, 0, o, 2, 0, 3] 0]) ∧
      parenCode "Garbage" = none := by
  intro a o
  refine ⟨?_, ?_, rfl⟩ <;>
    simp [encode, pipeline, exampleInput, parenCode, encodeSex, encodeFbs, encodeExang,
      appendRecord]

/-- Counting a value in the risk column is counting the records that
carry it. -/
theorem countVal_riskColumn (rows : List PersistedRecord) (s : String) :
    countVal (riskColumn rows) s = (rows.filter (fun r => r.risk_level = s)).length := by
  induction rows with
  | nil => rfl
  | cons r t ih =>
      by_cases h : r.risk_level = s <;>
        simp [countVal, riskColumn, List.filter_cons, h] at ih ⊢ <;> omega

/-- A value appears in the `value_counts` index exactly when some
record carries it. -/
theorem mem_valueCountsKeys (rows : List PersistedRecord) (s : String) :
    s ∈ valueCountsKeys (riskColumn rows) ↔
      (rows.filter (fun r => r.risk_level = s)).length ≠ 0 := by
  rw [valueCountsKeys, List.mem_dedup, riskColumn]
  simp [List.mem_map, List.length_eq_zero, List.filter_eq_nil_iff]

/-- Counterexample to claim C8: for a store holding one label-0 row
(k = 0, m = 1), `value_counts()` has no "High" entry at all — its
index is just ["Low"] — rather than the claimed mapping with
"High" mapped to 0. -/
theorem c8_counterexample :
    valueCountsKeys (riskColumn [mkRecord exVec 0]) = ["Low"] ∧
    ¬ "High" ∈ valueCountsKeys (riskColumn [mkRecord exVec 0]) ∧
    countVal (riskColumn [mkRecord exVec 0]) "Low" = 1 ∧
    countVal (riskColumn [mkRecord exVec 0]) "High" = 0 := by
  decide

/-- Claim C8, amended: for a store of app-written rows with k label-1
rows and m label-0 rows, the "High" count is k and the "Low" count is
m, but a level with zero rows is dropped from the mapping by
`value_counts()` instead of appearing with count 0. -/
theorem c8_value_counts :
    ∀ rows : List PersistedRecord,
      (∀ r ∈ rows, ∃ v l, (l = 0 ∨ l = 1) ∧ r = mkRecord v l) →
      countVal (riskColumn rows) "High" = (rows.filter (fun r => r.prediction = 1)).length ∧
      countVal (riskColumn rows) "Low" = (rows.filter (fun r => r.prediction = 0)).length ∧
      ("High" ∈ valueCountsKeys (riskColumn rows) ↔
        (rows.filter (fun r => r.prediction = 1)).length ≠ 0) ∧
      ("Low" ∈ valueCountsKeys (riskColumn rows) ↔
        (rows.filter (fun r => r.prediction = 0)).length ≠ 0) := by
  intro rows hmk
  have hHigh : rows.filter (fun r => decide (r.risk_level = "High")) =
      rows.filter (fun r => decide (r.prediction = 1)) := by
    apply List.filter_congr
    intro r hr
    rcases hmk r hr with ⟨v, l, hl, rfl⟩
    rcases hl with rfl | rfl <;> simp [mkRecord, riskLevel]
  have hLow : rows.filter (fun r => decide (r.risk_level = "Low")) =
      rows.filter (fun r => decide (r.prediction = 0)) := by
    apply List.filter_congr
    intro r hr
    rcases hmk r hr with ⟨v, l, hl, rfl⟩
    rcases hl with rfl | rfl <;> simp [mkRecord, riskLevel]
  refine ⟨?_, ?_, ?_, ?_⟩
  · rw [countVal_riskColumn, hHigh]
  · rw [countVal_riskColumn, hLow]
  · rw [mem_valueCountsKeys, hHigh]
  · rw [mem_valueCountsKeys, hLow]

/-- Witness for the amended C8 on a two-row store with one row of each
label. -/
theorem c8_value_counts_witness :
    countVal (riskColumn [mkRecord exVec 1, mkRecord exVec 0]) "High" =
      (([mkRecord exVec 1, mkRecord exVec 0]).filter (fun r => r.prediction = 1)).length ∧
    countVal (riskColumn [mkRecord exVec 1, mkRecord exVec 0]) "Low" =
      (([mkRecord exVec 1, mkRecord exVec 0]).filter (fun r => r.prediction = 0)).length ∧
    ("High" ∈ valueCountsKeys (riskColumn [mkRecord exVec 1, mkRecord exVec 0]) ↔
      (([mkRecord exVec 1, mkRecord exVec 0]).filter (fun r => r.prediction = 1)).length ≠ 0) ∧
    ("Low" ∈ valueCountsKeys (riskColumn [mkRecord exVec 1, mkRecord exVec 0]) ↔
      (([mkRecord exVec 1, mkRecord exVec 0]).filter (fun r => r.prediction = 0)).length ≠ 0) := by
  apply c8_value_counts
  intro r hr
  simp only [List.mem_cons, List.not_mem_nil, or_false] at hr
  rcases hr with rfl | rfl
  · exact ⟨exVec, 1, Or.inr rfl, rfl⟩
  · exact ⟨exVec, 0, Or.inl rfl, rfl⟩

/-- First of two distinct records appended concurrently. -/
def recA : PersistedRecord := mkRecord exVec 0

/-- Second of two distinct records appended concurrently. -/
def recB : PersistedRecord := mkRecord [1] 1

/-- A row already in the store before the concurrent appends. -/
def priorRec : PersistedRecord := mkRecord [2] 1

/-- The interleaving in which both appends read the file before either
writes it back. -/
def racySchedule : List StoreStep :=
  [StoreStep.doRead 0, StoreStep.doRead 1, StoreStep.doWrite 0, StoreStep.doWrite 1]

/-- Counterexample to claim C9: two concurrent appends of distinct
records over a one-row store, interleaved read-read-write-write (a
legal schedule — each task reads before it writes), leave the store
with 2 rows instead of 1 + 2 = 3: the first record is lost, because
the second writer's snapshot predates the first write.  The code takes
no lock around its read-concat-write cycle. -/
theorem c9_counterexample :
    validSchedule 2 racySchedule ∧
    (crun [recA, recB] (some [priorRec]) racySchedule).file = some [priorRec, recB] ∧
    (readAll (crun [recA, recB] (some [priorRec]) racySchedule).file).length = 2 ∧
    ¬ recA ∈ readAll (crun [recA, recB] (some [priorRec]) racySchedule).file := by
  refine ⟨?_, by decide, by decide, by decide⟩
  refine ⟨?_, ?_, ?_⟩ <;> decide

/-- Claim C9, amended: the no-lost-update guarantee holds only when
the appends are serialized — each append completing before the next
starts yields exactly the prior rows plus both new records, in order. -/
theorem c9_sequential_append :
    ∀ (file0 : Option (List PersistedRecord)) (r0 r1 : PersistedRecord),
      (crun [r0, r1] file0
        [StoreStep.doRead 0, StoreStep.doWrite 0, StoreStep.doRead 1, StoreStep.doWrite 1]).file =
        some (readAll file0 ++ [r0, r1]) := by
  intro file0 r0 r1
  cases file0 <;> simp [crun, cstep, appendSnapshot, readAll]
